import Mathlib

/-!
# Probe-side filtering, per-thread state and lookup keys

A shallow embedding of

* `pkg/gadgets/trace/signal/tracer/bpf/sigsnoop.bpf.c`
  (`probe_entry`, `probe_exit`, `ig_sig_generate`),
* `pkg/gadgets/internal/socketenricher/bpf/sockets-map.h`
  (`gadget_socket_lookup`),
* `pkg/gadgets/traceloop/tracer/bpf/traceloop.h` (the length-mode constants),

followed by the properties established about them.

Conventions.  Unsigned C integers are `Nat`, reduced explicitly where the C
code truncates; signed C integers (`int`, `pid_t`) are `Int`.  Kernel hash maps
are association lists with an explicit capacity.  A probe is a function from
the state before the call to the state after it together with the value it
returns; the records handed to `bpf_perf_event_output` are collected, oldest
first, in the `events` component of the state.
-/

namespace Sigsnoop

/-! ## Kernel hash maps -/

/-- Contents of a `BPF_MAP_TYPE_HASH` map: the key/value pairs it holds. -/
abbrev BpfHash (κ ν : Type) := List (κ × ν)

/-- First value stored under the key `k`, as `bpf_map_lookup_elem` returns it
(`none` is the null pointer). -/
def bpf_map_lookup_elem {κ ν : Type} [DecidableEq κ] : BpfHash κ ν → κ → Option ν
  | [], _ => none
  | (k', v) :: rest, k => if k' = k then some v else bpf_map_lookup_elem rest k

/-- Removal of every pair stored under `k` (`bpf_map_delete_elem`). -/
def bpf_map_delete_elem {κ ν : Type} [DecidableEq κ] : BpfHash κ ν → κ → BpfHash κ ν
  | [], _ => []
  | (k', w) :: rest, k =>
    if k' = k then bpf_map_delete_elem rest k else (k', w) :: bpf_map_delete_elem rest k

/-- A store through a pointer obtained from `bpf_map_lookup_elem`: the value
under `k` is replaced in place. -/
def bpf_map_store {κ ν : Type} [DecidableEq κ] : BpfHash κ ν → κ → ν → BpfHash κ ν
  | [], _, _ => []
  | (k', w) :: rest, k, v => (k', if k' = k then v else w) :: bpf_map_store rest k v

/-- The helper `bpf_map_update_elem(map, &k, &v, BPF_ANY)` on a map declared
with `max_entries` slots: an existing key is overwritten, a new key is inserted
while there is room, and on a full map the call fails and the map keeps its
contents (the probes below ignore the helper's return code). -/
def bpf_map_update_elem {κ ν : Type} [DecidableEq κ] (max_entries : Nat)
    (m : BpfHash κ ν) (k : κ) (v : ν) : BpfHash κ ν :=
  if (bpf_map_lookup_elem m k).isSome then bpf_map_store m k v
  else if m.length < max_entries then (k, v) :: m
  else m

/-! ## The signal tracer -/

/-- Capacity of the `values` map. -/
def MAX_ENTRIES : Nat := 10240

/-- Size of a command name. -/
def TASK_COMM_LEN : Nat := 16

/-- Value of a C `int` (or `pid_t`) after conversion to `__u32`. -/
def u32_of_int (x : Int) : Nat := (x % (2 ^ 32 : Int)).toNat

/-- The record `struct event` of the signal tracer.  Its declaration lives in
`sigsnoop.h`; the fields are the ones the probes assign. -/
structure event where
  pid : Nat
  tpid : Int
  sig : Int
  ret : Int
  mntns_id : Nat
  timestamp : Nat
  comm : List Nat
deriving DecidableEq, Repr

/-- The initialiser `struct event event = {}`. -/
def event.zero : event :=
  { pid := 0, tpid := 0, sig := 0, ret := 0, mntns_id := 0, timestamp := 0,
    comm := List.replicate TASK_COMM_LEN 0 }

/-- The read-only globals of the program (`const volatile`). -/
structure Config where
  filtered_pid : Int
  target_signal : Int
  failed_only : Bool
  filter_by_mnt_ns : Bool
deriving DecidableEq, Repr

/-- What the kernel helpers report about the task running the probe. -/
structure Task where
  /-- result of `bpf_get_current_pid_tgid()` -/
  pid_tgid : Nat
  /-- inode number of the mount namespace, `task->nsproxy->mnt_ns->ns.inum` -/
  mntns_inum : Nat
  /-- bytes written by `bpf_get_current_comm` -/
  comm : List Nat
  /-- result of `bpf_ktime_get_boot_ns()` -/
  boot_ns : Nat
deriving DecidableEq, Repr

/-- The mutable maps: `values`, and the records handed to the perf buffer
`events`, oldest first. -/
structure State where
  values : BpfHash Nat event
  events : List event
deriving DecidableEq, Repr

/-- The 64-bit word of `bpf_get_current_pid_tgid()`. -/
def bpf_get_current_pid_tgid (cur : Task) : Nat := cur.pid_tgid % 2 ^ 64

/-- The value `(u64) BPF_CORE_READ(task, nsproxy, mnt_ns, ns.inum)`. -/
def current_mntns_id (cur : Task) : Nat := cur.mntns_inum % 2 ^ 64

/-- The local `pid` of the probes: `pid_tgid >> 32` as a `__u32`. -/
def current_pid (cur : Task) : Nat := (bpf_get_current_pid_tgid cur >>> 32) % 2 ^ 32

/-- The local `tid` of the probes: `(__u32)pid_tgid`. -/
def current_tid (cur : Task) : Nat := bpf_get_current_pid_tgid cur % 2 ^ 32

/-- The function `probe_entry(tpid, sig)`. -/
def probe_entry (cfg : Config) (mount_ns_filter : BpfHash Nat Nat) (cur : Task)
    (tpid sig : Int) (st : State) : State × Int :=
  let mntns_id := current_mntns_id cur
  if cfg.filter_by_mnt_ns && (bpf_map_lookup_elem mount_ns_filter mntns_id).isNone then
    (st, 0)
  else if decide (cfg.target_signal ≠ 0) && decide (sig ≠ cfg.target_signal) then
    (st, 0)
  else
    let pid := current_pid cur
    let tid := current_tid cur
    if decide (cfg.filtered_pid ≠ 0) && decide (pid ≠ u32_of_int cfg.filtered_pid) then
      (st, 0)
    else
      let ev : event :=
        { event.zero with
          pid := pid, tpid := tpid, sig := sig, mntns_id := mntns_id, comm := cur.comm }
      ({ st with values := bpf_map_update_elem MAX_ENTRIES st.values tid ev }, 0)

/-- The function `probe_exit(ctx, ret)`. -/
def probe_exit (cfg : Config) (cur : Task) (ret : Int) (st : State) : State × Int :=
  let tid := current_tid cur
  match bpf_map_lookup_elem st.values tid with
  | none => (st, 0)
  | some eventp =>
    if cfg.failed_only && decide (ret ≥ 0) then
      ({ st with values := bpf_map_delete_elem st.values tid }, 0)
    else
      let out : event := { eventp with ret := ret, timestamp := cur.boot_ns % 2 ^ 64 }
      ({ values := bpf_map_delete_elem (bpf_map_store st.values tid out) tid,
         events := st.events ++ [out] }, 0)

/-- The fields of `struct trace_event_raw_signal_generate` read by the probe. -/
structure trace_event_raw_signal_generate where
  sig : Int
  errno : Int
  pid : Int
deriving DecidableEq, Repr

/-- The program `ig_sig_generate` on `tracepoint/signal/signal_generate`. -/
def ig_sig_generate (cfg : Config) (mount_ns_filter : BpfHash Nat Nat) (cur : Task)
    (ctx : trace_event_raw_signal_generate) (st : State) : State × Int :=
  let tpid := ctx.pid
  let ret := ctx.errno
  let sig := ctx.sig
  let mntns_id := current_mntns_id cur
  if cfg.filter_by_mnt_ns && (bpf_map_lookup_elem mount_ns_filter mntns_id).isNone then
    (st, 0)
  else if cfg.failed_only && decide (ret = 0) then
    (st, 0)
  else if decide (cfg.target_signal ≠ 0) && decide (sig ≠ cfg.target_signal) then
    (st, 0)
  else
    let pid := current_pid cur
    if decide (cfg.filtered_pid ≠ 0) && decide (pid ≠ u32_of_int cfg.filtered_pid) then
      (st, 0)
    else
      let ev : event :=
        { event.zero with
          pid := pid, tpid := tpid, mntns_id := mntns_id, sig := sig, ret := ret,
          comm := cur.comm, timestamp := cur.boot_ns % 2 ^ 64 }
      ({ st with events := st.events ++ [ev] }, 0)

/-- The call is rejected by one of the three filters of `probe_entry`: the
mount-namespace filter, the signal filter, or the pid filter. -/
def entry_rejected (cfg : Config) (mount_ns_filter : BpfHash Nat Nat) (cur : Task)
    (sig : Int) : Prop :=
  (cfg.filter_by_mnt_ns = true ∧
      bpf_map_lookup_elem mount_ns_filter (current_mntns_id cur) = none) ∨
  (cfg.target_signal ≠ 0 ∧ sig ≠ cfg.target_signal) ∨
  (cfg.filtered_pid ≠ 0 ∧ current_pid cur ≠ u32_of_int cfg.filtered_pid)

instance (cfg : Config) (mount_ns_filter : BpfHash Nat Nat) (cur : Task) (sig : Int) :
    Decidable (entry_rejected cfg mount_ns_filter cur sig) := by
  unfold entry_rejected; infer_instance

/-- The record `probe_entry` builds for a call that passes the filters. -/
def entry_event (cur : Task) (tpid sig : Int) : event :=
  { event.zero with
    pid := current_pid cur, tpid := tpid, sig := sig,
    mntns_id := current_mntns_id cur, comm := cur.comm }

/-- A program with only the signal filter set, to signal 9. -/
def cfg_sig9 : Config :=
  { filtered_pid := 0, target_signal := 9, failed_only := false, filter_by_mnt_ns := false }

/-- A program with only the pid filter set, to `p`. -/
def cfg_pid (p : Int) : Config :=
  { filtered_pid := p, target_signal := 0, failed_only := false, filter_by_mnt_ns := false }

/-- A thread with thread id 7 of the process with pid 5. -/
def thread_5_7 : Task :=
  { pid_tgid := 5 * 2 ^ 32 + 7, mntns_inum := 4026531840,
    comm := [107, 105, 108, 108, 0, 0, 0, 0, 0, 0, 0, 0, 0, 0, 0, 0], boot_ns := 1000 }

/-- The state of a freshly loaded program. -/
def State.empty : State := { values := [], events := [] }

/-- The state left by an entry on thread 7 that passed the filters and whose
exit never ran. -/
def stale_state : State := (probe_entry cfg_sig9 [] thread_5_7 42 9 State.empty).1

end Sigsnoop

namespace SocketsMap

open Sigsnoop (BpfHash bpf_map_lookup_elem)

/-! ## The socket enricher lookup -/

/-- Packet type of a frame addressed to this host. -/
def PACKET_HOST : Nat := 0

/-- Length of the Ethernet header. -/
def ETH_HLEN : Nat := 14

/-- Protocol number of TCP (`linux/in.h`). -/
def IPPROTO_TCP : Nat := 6

/-- Protocol number of UDP (`linux/in.h`). -/
def IPPROTO_UDP : Nat := 17

/-- The size `sizeof(struct iphdr)` (`linux/ip.h`). -/
def sizeof_iphdr : Nat := 20

/-- The offset `offsetof(struct iphdr, protocol)`. -/
def iphdr_protocol : Nat := 9

/-- The offset `offsetof(struct tcphdr, source)`. -/
def tcphdr_source : Nat := 0

/-- The offset `offsetof(struct tcphdr, dest)`. -/
def tcphdr_dest : Nat := 2

/-- The offset `offsetof(struct udphdr, source)`. -/
def udphdr_source : Nat := 0

/-- The offset `offsetof(struct udphdr, dest)`. -/
def udphdr_dest : Nat := 2

/-- The macro `L4_OFF`. -/
def L4_OFF : Nat := ETH_HLEN + sizeof_iphdr

/-- The key `struct sockets_key`. -/
structure sockets_key where
  netns : Nat
  proto : Nat
  port : Nat
deriving DecidableEq, Repr

/-- The value `struct sockets_value`. -/
structure sockets_value where
  mntns : Nat
  pid_tgid : Nat
  task : List Nat
  server : Nat
deriving DecidableEq, Repr

/-- The parts of `struct __sk_buff` the lookup reads: the packet type and the
bytes of the frame, starting at the Ethernet header. -/
structure sk_buff where
  pkt_type : Nat
  data : List Nat
deriving DecidableEq, Repr

/-- The intrinsic `llvm.bpf.load.byte`: the byte at offset `off` of the frame.
A load outside the frame ends the program; that outcome is `none`. -/
def load_byte (skb : sk_buff) (off : Nat) : Option Nat :=
  (skb.data[off]?).map (fun b => b % 256)

/-- The intrinsic `llvm.bpf.load.half`: the two bytes at `off`, read in network
byte order. -/
def load_half (skb : sk_buff) (off : Nat) : Option Nat :=
  match load_byte skb off, load_byte skb (off + 1) with
  | some hi, some lo => some (hi * 256 + lo)
  | _, _ => none

/-- The function `gadget_socket_lookup(skb)`.  The result pairs the `sockets`
map after the call with the outcome: `none` when a packet load ended the
program, `some r` when the function returned the pointer `r`. -/
def gadget_socket_lookup (current_netns : Nat) (skb : sk_buff)
    (sockets : BpfHash sockets_key sockets_value) :
    BpfHash sockets_key sockets_value × Option (Option sockets_value) :=
  let netns := (current_netns % 2 ^ 64) % 2 ^ 32
  match load_byte skb (ETH_HLEN + iphdr_protocol) with
  | none => (sockets, none)
  | some b =>
    let proto := b % 2 ^ 16
    if proto = IPPROTO_TCP then
      if skb.pkt_type = PACKET_HOST then
        match load_half skb (L4_OFF + tcphdr_dest) with
        | none => (sockets, none)
        | some h =>
          (sockets, some (bpf_map_lookup_elem sockets
            { netns := netns, proto := proto, port := h % 2 ^ 16 }))
      else
        match load_half skb (L4_OFF + tcphdr_source) with
        | none => (sockets, none)
        | some h =>
          (sockets, some (bpf_map_lookup_elem sockets
            { netns := netns, proto := proto, port := h % 2 ^ 16 }))
    else if proto = IPPROTO_UDP then
      if skb.pkt_type = PACKET_HOST then
        match load_half skb (L4_OFF + udphdr_dest) with
        | none => (sockets, none)
        | some h =>
          (sockets, some (bpf_map_lookup_elem sockets
            { netns := netns, proto := proto, port := h % 2 ^ 16 }))
      else
        match load_half skb (L4_OFF + udphdr_source) with
        | none => (sockets, none)
        | some h =>
          (sockets, some (bpf_map_lookup_elem sockets
            { netns := netns, proto := proto, port := h % 2 ^ 16 }))
    else
      (sockets, some none)

/-- The protocol field of the IPv4 header that follows the Ethernet header:
byte 23 of the frame, when the frame reaches that far. -/
def ip_protocol (skb : sk_buff) : Option Nat := load_byte skb 23

/-- Length in bytes of the IPv4 header that follows the Ethernet header: four
times the IHL field, the low four bits of byte 14 of the frame. -/
def ip_header_len (skb : sk_buff) : Option Nat :=
  (load_byte skb 14).map (fun b => 4 * (b % 16))

/-- The L4 source port: the first two bytes, in network byte order, of the
transport header, which starts where the IPv4 header ends. -/
def l4_source_port (skb : sk_buff) : Option Nat :=
  match ip_header_len skb with
  | none => none
  | some n => load_half skb (14 + n)

/-- The L4 destination port: bytes 2 and 3, in network byte order, of the
transport header, which starts where the IPv4 header ends. -/
def l4_dest_port (skb : sk_buff) : Option Nat :=
  match ip_header_len skb with
  | none => none
  | some n => load_half skb (14 + n + 2)

/-- A TCP segment to port 443 (source port 51000) in an Ethernet frame whose
IPv4 header has no options (IHL = 5). -/
def tcp_frame : List Nat :=
  [2, 0, 0, 0, 0, 1, 2, 0, 0, 0, 0, 2, 8, 0,
   69, 0, 0, 40, 0, 0, 64, 0, 64, 6, 0, 0, 10, 0, 0, 1, 10, 0, 0, 2,
   199, 56, 1, 187, 0, 0, 0, 0, 0, 0, 0, 0, 80, 2, 0, 0, 0, 0, 0, 0]

/-- The same TCP segment behind an IPv4 header that carries one option, Router
Alert (bytes 148, 4, 0, 0), so that IHL = 6 and the TCP header starts at
byte 38. -/
def tcp_frame_with_option : List Nat :=
  [2, 0, 0, 0, 0, 1, 2, 0, 0, 0, 0, 2, 8, 0,
   70, 0, 0, 44, 0, 0, 64, 0, 64, 6, 0, 0, 10, 0, 0, 1, 10, 0, 0, 2,
   148, 4, 0, 0,
   199, 56, 1, 187, 0, 0, 0, 0, 0, 0, 0, 0, 80, 2, 0, 0, 0, 0, 0, 0]

/-- A `sockets` map with one server socket on TCP port 443 of namespace 7. -/
def one_socket : BpfHash sockets_key sockets_value :=
  [({ netns := 7, proto := 6, port := 443 },
    { mntns := 4026531840, pid_tgid := 5 * 2 ^ 32 + 7, task := [], server := 1 })]

end SocketsMap

namespace Traceloop

/-! ## The traceloop record format -/

/-- Payload capacity of a continuation record. -/
def PARAM_LEN : Nat := 128

/-- The syscall can have max 6 arguments. -/
def SYSCALL_ARGS : Nat := 6

/-- Mask of the bits marking a parameter probed at exit. -/
def PARAM_PROBE_AT_EXIT_MASK : Nat := 0xf000000000000000

/-- Length descriptor: use the return value as the length. -/
def USE_RET_AS_PARAM_LENGTH : Nat := 0x0ffffffffffffffe

/-- Length descriptor: the parameter ends at the first null byte. -/
def USE_NULL_BYTE_LENGTH : Nat := 0x0fffffffffffffff

/-- Length descriptor: base value to which an argument index is added. -/
def USE_ARG_INDEX_AS_PARAM_LENGTH : Nat := 0x0ffffffffffffff0

/-- Mask reading the argument index back. -/
def USE_ARG_INDEX_AS_PARAM_LENGTH_MASK : Nat := 0xf

/-- The four length-specs of a syscall argument descriptor. -/
inductive LengthSpec where
  | Fixed (n : Nat)
  | NullTerminated
  | ReturnValueAsLength
  | ArgIndexAsLength (i : Fin SYSCALL_ARGS)
deriving DecidableEq, Repr

/-- The `args_len` word that describes a length-spec in `struct syscall_def_t`,
built from the header's constants; the index mode is generated by addition,
as the header prescribes. -/
def args_len_of : LengthSpec → Nat
  | .Fixed n => n
  | .NullTerminated => USE_NULL_BYTE_LENGTH
  | .ReturnValueAsLength => USE_RET_AS_PARAM_LENGTH
  | .ArgIndexAsLength i => USE_ARG_INDEX_AS_PARAM_LENGTH + i.val

/-- The length-spec is one of the three dynamic modes. -/
def LengthSpec.is_dynamic : LengthSpec → Bool
  | .Fixed _ => false
  | _ => true

/-- Modelled from the spec: the Argument Length Resolver
`resolve(spec, entry_args, exit_return) -> Option<u64 length>` of section 4.1;
the encoder that implements it (`traceloop.bpf.c`) is not among the sources.
`Fixed n` always gives `n`; `NullTerminated` gives the sentinel for a length
discovered during capture (the header's `USE_NULL_BYTE_LENGTH`);
`ReturnValueAsLength` gives nothing unless the return value is non-negative,
and then the return value clamped to the maximum (section 3);
`ArgIndexAsLength i` gives `entry_args[i]` clamped to the continuation payload
capacity, and nothing on a negative return value, which "yields zero captured
bytes" for both dynamic modes (section 8, property 6). -/
def resolve (spec : LengthSpec) (entry_args : Fin SYSCALL_ARGS → Nat) (exit_return : Int) :
    Option Nat :=
  match spec with
  | .Fixed n => some n
  | .NullTerminated => some USE_NULL_BYTE_LENGTH
  | .ReturnValueAsLength =>
    if exit_return < 0 then none else some (min exit_return.toNat PARAM_LEN)
  | .ArgIndexAsLength i =>
    if exit_return < 0 then none else some (min (entry_args i) PARAM_LEN)

/-- Modelled from the spec: the `length` field of the continuation record
written for an argument, "the resolved byte count, bounded by the payload
buffer size" (section 3); no resolved length means that no data is captured.
The code filling `struct syscall_event_cont_t` is not among the sources. -/
def cont_length (resolved : Option Nat) : Nat :=
  match resolved with
  | none => 0
  | some n => min n PARAM_LEN

/-- Entry-time argument words of a `write(fd, buf, 5)` call. -/
def write_args : Fin SYSCALL_ARGS → Nat := fun i => if i.val = 2 then 5 else 0

/-- Entry-time argument words of a `write(fd, buf, 4096)` call. -/
def big_write_args : Fin SYSCALL_ARGS → Nat := fun i => if i.val = 2 then 4096 else 0

end Traceloop

namespace Sigsnoop

/-! ## Facts about the hash-map model -/

section maps
variable {κ ν : Type} [DecidableEq κ]

theorem lookup_delete (m : BpfHash κ ν) (k k' : κ) :
    bpf_map_lookup_elem (bpf_map_delete_elem m k) k' =
      if k' = k then none else bpf_map_lookup_elem m k' := by
  induction m with
  | nil => simp [bpf_map_delete_elem, bpf_map_lookup_elem]
  | cons p rest ih =>
    obtain ⟨a, b⟩ := p
    by_cases h : a = k <;> by_cases h2 : k' = k <;> by_cases h4 : a = k' <;>
      simp_all [bpf_map_delete_elem, bpf_map_lookup_elem]

theorem delete_store (m : BpfHash κ ν) (k : κ) (v : ν) :
    bpf_map_delete_elem (bpf_map_store m k v) k = bpf_map_delete_elem m k := by
  induction m with
  | nil => rfl
  | cons p rest ih =>
    obtain ⟨a, b⟩ := p
    by_cases h : a = k <;> simp_all [bpf_map_delete_elem, bpf_map_store]

theorem delete_of_lookup_none (m : BpfHash κ ν) (k : κ)
    (h : bpf_map_lookup_elem m k = none) : bpf_map_delete_elem m k = m := by
  induction m with
  | nil => rfl
  | cons p rest ih =>
    obtain ⟨a, b⟩ := p
    by_cases hk : a = k <;> simp_all [bpf_map_delete_elem, bpf_map_lookup_elem]

end maps

/-! ## The signal tracer: filtering and per-thread state -/

theorem u32_of_int_of_nonneg (x : Int) (h0 : 0 ≤ x) (h1 : x < 2 ^ 32) :
    u32_of_int x = x.toNat := by
  unfold u32_of_int
  rw [Int.emod_eq_of_lt h0 h1]

theorem probe_entry_of_rejected (cfg : Config) (mnt : BpfHash Nat Nat) (cur : Task)
    (tpid sig : Int) (st : State) (h : entry_rejected cfg mnt cur sig) :
    probe_entry cfg mnt cur tpid sig st = (st, 0) := by
  unfold probe_entry
  rcases h with ⟨h1, h2⟩ | ⟨h1, h2⟩ | ⟨h1, h2⟩
  · simp [h1, h2]
  · simp only [h1, h2]
    split_ifs <;> simp_all
  · simp only [h1, h2]
    split_ifs <;> simp_all

theorem probe_exit_of_none (cfg : Config) (cur : Task) (ret : Int) (st : State)
    (h : bpf_map_lookup_elem st.values (current_tid cur) = none) :
    probe_exit cfg cur ret st = (st, 0) := by
  unfold probe_exit
  simp only [h]

theorem probe_exit_of_some (cfg : Config) (cur : Task) (ret : Int) (st : State) (e : event)
    (h : bpf_map_lookup_elem st.values (current_tid cur) = some e) :
    probe_exit cfg cur ret st =
      if cfg.failed_only = true ∧ 0 ≤ ret then
        ({ st with values := bpf_map_delete_elem st.values (current_tid cur) }, 0)
      else
        ({ values := bpf_map_delete_elem st.values (current_tid cur),
           events := st.events ++ [{ e with ret := ret, timestamp := cur.boot_ns % 2 ^ 64 }] },
          0) := by
  unfold probe_exit
  simp only [h, delete_store]
  by_cases hc : cfg.failed_only = true ∧ 0 ≤ ret
  · rw [if_pos hc]; simp [hc.1, hc.2]
  · rw [if_neg hc]
    have : (cfg.failed_only && decide (ret ≥ 0)) = false := by
      cases hf : cfg.failed_only
      · simp
      · simp only [hf, true_and] at hc
        simp [hc]
    simp [this]

/-- C2: when one of the three filters (mount namespace, target signal,
filtered pid) rejects the call, `probe_entry` returns 0, emits no event and
leaves the `values` table exactly as it was. -/
theorem probe_entry_rejected_no_effect (cfg : Config) (mnt : BpfHash Nat Nat) (cur : Task)
    (tpid sig : Int) (st : State) (h : entry_rejected cfg mnt cur sig) :
    (probe_entry cfg mnt cur tpid sig st).2 = 0 ∧
    (probe_entry cfg mnt cur tpid sig st).1.events = st.events ∧
    (probe_entry cfg mnt cur tpid sig st).1.values = st.values := by
  rw [probe_entry_of_rejected cfg mnt cur tpid sig st h]
  exact ⟨rfl, rfl, rfl⟩

/-- Witness for C2: an entry with signal 15 under a filter on signal 9, on a
table that already holds an entry. -/
theorem probe_entry_rejected_no_effect_witness :
    entry_rejected cfg_sig9 [] thread_5_7 15 ∧
    (probe_entry cfg_sig9 [] thread_5_7 42 15 stale_state).2 = 0 ∧
    (probe_entry cfg_sig9 [] thread_5_7 42 15 stale_state).1.events = stale_state.events ∧
    (probe_entry cfg_sig9 [] thread_5_7 42 15 stale_state).1.values = stale_state.values :=
  ⟨by decide,
    probe_entry_rejected_no_effect cfg_sig9 [] thread_5_7 42 15 stale_state (by decide)⟩

/-- C1, as stated, fails: on a `values` table that still holds an entry for the
thread (left by an earlier entry whose exit never ran), a rejected
`probe_entry` is followed by a `probe_exit` that emits that older entry. -/
theorem filtered_call_emits_stale_entry :
    stale_state = { values := [(7, entry_event thread_5_7 42 9)], events := [] } ∧
    entry_rejected cfg_sig9 [] thread_5_7 15 ∧
    (probe_exit cfg_sig9 thread_5_7 0
        (probe_entry cfg_sig9 [] thread_5_7 42 15 stale_state).1).1.events =
      [{ entry_event thread_5_7 42 9 with ret := 0, timestamp := 1000 }] := by
  decide

/-- C1, amended: if `probe_entry` is rejected by a filter and the `values`
table held no entry for the calling thread, then neither that `probe_entry`
nor the `probe_exit` that follows it on the same thread emits an event, for
every return value. -/
theorem filtered_call_emits_nothing (cfg : Config) (mnt : BpfHash Nat Nat)
    (cur cur_exit : Task) (tpid sig ret : Int) (st : State)
    (hrej : entry_rejected cfg mnt cur sig)
    (hfresh : bpf_map_lookup_elem st.values (current_tid cur) = none)
    (htid : current_tid cur_exit = current_tid cur) :
    (probe_entry cfg mnt cur tpid sig st).1.events = st.events ∧
    (probe_exit cfg cur_exit ret (probe_entry cfg mnt cur tpid sig st).1).1.events =
      st.events := by
  rw [probe_entry_of_rejected cfg mnt cur tpid sig st hrej]
  refine ⟨rfl, ?_⟩
  rw [probe_exit_of_none cfg cur_exit ret st (by rw [htid]; exact hfresh)]

/-- Witness for the amended C1 on the empty table. -/
theorem filtered_call_emits_nothing_witness :
    entry_rejected cfg_sig9 [] thread_5_7 15 ∧
    bpf_map_lookup_elem State.empty.values (current_tid thread_5_7) = none ∧
    current_tid thread_5_7 = current_tid thread_5_7 ∧
    (probe_entry cfg_sig9 [] thread_5_7 42 15 State.empty).1.events = State.empty.events ∧
    (probe_exit cfg_sig9 thread_5_7 (-3)
        (probe_entry cfg_sig9 [] thread_5_7 42 15 State.empty).1).1.events =
      State.empty.events :=
  ⟨by decide, by decide, rfl,
    filtered_call_emits_nothing cfg_sig9 [] thread_5_7 thread_5_7 42 15 (-3) State.empty
      (by decide) (by decide) rfl⟩

/-- C3, as stated, fails: with `filtered_pid = 5`, a call from thread id 7 of
process 5 stores state and makes `ig_sig_generate` emit although its thread id
differs from `filtered_pid`; with `filtered_pid = 7`, the same thread, whose
thread id equals `filtered_pid`, stores and emits nothing. -/
theorem pid_filter_is_not_thread_filter :
    current_tid thread_5_7 = 7 ∧ current_pid thread_5_7 = 5 ∧
    (probe_entry (cfg_pid 5) [] thread_5_7 42 9 State.empty).1.values =
      [(7, entry_event thread_5_7 42 9)] ∧
    (ig_sig_generate (cfg_pid 5) [] thread_5_7 { sig := 9, errno := 0, pid := 42 }
        State.empty).1.events.length = 1 ∧
    probe_entry (cfg_pid 7) [] thread_5_7 42 9 State.empty = (State.empty, 0) ∧
    ig_sig_generate (cfg_pid 7) [] thread_5_7 { sig := 9, errno := 0, pid := 42 }
        State.empty = (State.empty, 0) := by
  decide

/-- C3, amended: the identity filter is a process id filter.  When
`filtered_pid` is non-zero, a call from a task whose pid (the high 32 bits of
the pid_tgid value) differs from `filtered_pid` makes `probe_entry` store
nothing and `ig_sig_generate` emit nothing; the `values` table stays keyed by
the thread id. -/
theorem pid_filter_rejects_other_pid (cfg : Config) (mnt : BpfHash Nat Nat) (cur : Task)
    (tpid sig : Int) (ctx : trace_event_raw_signal_generate) (st : State)
    (hset : cfg.filtered_pid ≠ 0)
    (hpid : current_pid cur ≠ u32_of_int cfg.filtered_pid) :
    probe_entry cfg mnt cur tpid sig st = (st, 0) ∧
    ig_sig_generate cfg mnt cur ctx st = (st, 0) := by
  refine ⟨probe_entry_of_rejected cfg mnt cur tpid sig st (Or.inr (Or.inr ⟨hset, hpid⟩)), ?_⟩
  unfold ig_sig_generate
  simp only [hset, hpid]
  split_ifs <;> simp_all

/-- Witness for the amended C3: thread 7 of process 5 under `filtered_pid = 7`. -/
theorem pid_filter_rejects_other_pid_witness :
    (cfg_pid 7).filtered_pid ≠ 0 ∧
    current_pid thread_5_7 ≠ u32_of_int (cfg_pid 7).filtered_pid ∧
    probe_entry (cfg_pid 7) [] thread_5_7 42 9 stale_state = (stale_state, 0) ∧
    ig_sig_generate (cfg_pid 7) [] thread_5_7 { sig := 9, errno := 0, pid := 42 }
        stale_state = (stale_state, 0) :=
  ⟨by decide, by decide,
    pid_filter_rejects_other_pid (cfg_pid 7) [] thread_5_7 42 9
      { sig := 9, errno := 0, pid := 42 } stale_state (by decide) (by decide)⟩

/-- C4: after `probe_exit` runs on thread `tid` the `values` table is the prior
table with `tid` erased: it has no entry for `tid` and every other key keeps
its entry, whatever the return value and `failed_only`, and also when there
was no entry for `tid`. -/
theorem probe_exit_erases_tid (cfg : Config) (cur : Task) (ret : Int) (st : State) :
    (probe_exit cfg cur ret st).1.values = bpf_map_delete_elem st.values (current_tid cur) ∧
    ∀ k : Nat, bpf_map_lookup_elem (probe_exit cfg cur ret st).1.values k =
      if k = current_tid cur then none else bpf_map_lookup_elem st.values k := by
  have key : (probe_exit cfg cur ret st).1.values =
      bpf_map_delete_elem st.values (current_tid cur) := by
    cases h : bpf_map_lookup_elem st.values (current_tid cur) with
    | none =>
      rw [probe_exit_of_none cfg cur ret st h, delete_of_lookup_none _ _ h]
    | some e =>
      rw [probe_exit_of_some cfg cur ret st e h]
      split_ifs <;> rfl
  refine ⟨key, fun k => ?_⟩
  rw [key, lookup_delete]

/-- C5: `probe_exit` returns 0; it emits exactly one event if and only if the
`values` table holds an entry for the thread and (`failed_only` is false or
`ret < 0`), and it emits nothing in every other case. -/
theorem probe_exit_emits_iff (cfg : Config) (cur : Task) (ret : Int) (st : State) :
    (probe_exit cfg cur ret st).2 = 0 ∧
    ((∃ e, (probe_exit cfg cur ret st).1.events = st.events ++ [e]) ↔
      ((bpf_map_lookup_elem st.values (current_tid cur)).isSome = true ∧
        (cfg.failed_only = false ∨ ret < 0))) ∧
    ((probe_exit cfg cur ret st).1.events = st.events ↔
      ¬ ((bpf_map_lookup_elem st.values (current_tid cur)).isSome = true ∧
        (cfg.failed_only = false ∨ ret < 0))) := by
  cases h : bpf_map_lookup_elem st.values (current_tid cur) with
  | none =>
    rw [probe_exit_of_none cfg cur ret st h]
    simp
  | some e =>
    rw [probe_exit_of_some cfg cur ret st e h]
    by_cases hc : cfg.failed_only = true ∧ 0 ≤ ret
    · rw [if_pos hc]
      have h1 : ¬ (cfg.failed_only = false ∨ ret < 0) := by
        rintro (hf | hr)
        · rw [hc.1] at hf; exact Bool.noConfusion hf
        · omega
      simp [h1]
    · rw [if_neg hc]
      have h1 : cfg.failed_only = false ∨ ret < 0 := by
        by_cases hf : cfg.failed_only = true
        · right
          have : ¬ 0 ≤ ret := fun h0 => hc ⟨hf, h0⟩
          omega
        · left
          simpa using hf
      simp [h1]

/-- C10: `ig_sig_generate` returns 0 and never touches the `values` table; it
emits exactly one event if and only if the four filters pass (mount namespace,
failure-only, target signal, pid), and otherwise emits nothing; the emitted
event's tpid, sig and ret are the tracepoint's pid, sig and errno. -/
theorem ig_sig_generate_emits_iff (cfg : Config) (mnt : BpfHash Nat Nat) (cur : Task)
    (ctx : trace_event_raw_signal_generate) (st : State) :
    (ig_sig_generate cfg mnt cur ctx st).2 = 0 ∧
    (ig_sig_generate cfg mnt cur ctx st).1.values = st.values ∧
    (((cfg.filter_by_mnt_ns = false ∨
          (bpf_map_lookup_elem mnt (current_mntns_id cur)).isSome = true) ∧
        (cfg.failed_only = false ∨ ctx.errno ≠ 0) ∧
        (cfg.target_signal = 0 ∨ ctx.sig = cfg.target_signal) ∧
        (cfg.filtered_pid = 0 ∨ current_pid cur = u32_of_int cfg.filtered_pid)) ↔
      ∃ e, (ig_sig_generate cfg mnt cur ctx st).1.events = st.events ++ [e] ∧
        e.tpid = ctx.pid ∧ e.sig = ctx.sig ∧ e.ret = ctx.errno) ∧
    (¬ ((cfg.filter_by_mnt_ns = false ∨
          (bpf_map_lookup_elem mnt (current_mntns_id cur)).isSome = true) ∧
        (cfg.failed_only = false ∨ ctx.errno ≠ 0) ∧
        (cfg.target_signal = 0 ∨ ctx.sig = cfg.target_signal) ∧
        (cfg.filtered_pid = 0 ∨ current_pid cur = u32_of_int cfg.filtered_pid)) ↔
      (ig_sig_generate cfg mnt cur ctx st).1.events = st.events) := by
  unfold ig_sig_generate
  cases hf : cfg.filter_by_mnt_ns <;>
  cases hl : bpf_map_lookup_elem mnt (current_mntns_id cur) <;>
  cases ho : cfg.failed_only <;>
  by_cases he : ctx.errno = 0 <;>
  by_cases ht : cfg.target_signal = 0 <;>
  by_cases hs : ctx.sig = cfg.target_signal <;>
  by_cases hp : cfg.filtered_pid = 0 <;>
  by_cases hq : current_pid cur = u32_of_int cfg.filtered_pid <;>
  simp [hl, he, ht, hs, hp, hq]

end Sigsnoop

namespace SocketsMap

open Sigsnoop (BpfHash bpf_map_lookup_elem)

/-! ## The socket enricher lookup -/

theorem load_byte_lt (skb : sk_buff) (off b : Nat) (h : load_byte skb off = some b) :
    b < 256 := by
  unfold load_byte at h
  cases hg : skb.data[off]? with
  | none => simp [hg] at h
  | some x =>
    simp only [hg, Option.map_some', Option.some.injEq] at h
    omega

theorem load_half_lt (skb : sk_buff) (off h : Nat) (hh : load_half skb off = some h) :
    h < 65536 := by
  unfold load_half at hh
  cases h1 : load_byte skb off with
  | none => simp [h1] at hh
  | some hi =>
    cases h2 : load_byte skb (off + 1) with
    | none => simp [h1, h2] at hh
    | some lo =>
      simp only [h1, h2, Option.some.injEq] at hh
      have := load_byte_lt skb off hi h1
      have := load_byte_lt skb (off + 1) lo h2
      omega

/-- C6, as stated, fails: behind an IPv4 header with one option (IHL = 6) the
L4 destination port of an incoming TCP segment is 443 and the `sockets` map
holds an entry for the key made of the namespace, TCP and port 443, but
`gadget_socket_lookup` reads the port at the fixed offset `L4_OFF + 2`, builds
the key with port 0, and returns no match. -/
theorem lookup_misses_port_behind_ip_option :
    ip_protocol { pkt_type := 0, data := tcp_frame_with_option } = some 6 ∧
    ip_header_len { pkt_type := 0, data := tcp_frame_with_option } = some 24 ∧
    l4_dest_port { pkt_type := 0, data := tcp_frame_with_option } = some 443 ∧
    load_half { pkt_type := 0, data := tcp_frame_with_option } (L4_OFF + tcphdr_dest) =
      some 0 ∧
    (bpf_map_lookup_elem one_socket { netns := 7, proto := 6, port := 443 }).isSome = true ∧
    gadget_socket_lookup 7 { pkt_type := 0, data := tcp_frame_with_option } one_socket =
      (one_socket, some none) := by
  decide

/-- C6, amended: `gadget_socket_lookup` leaves the `sockets` map unchanged; when
the IP protocol byte is neither TCP (6) nor UDP (17) it returns no match
whatever the map holds; otherwise it returns the map's entry, or absence, for
the key made of `current_netns` truncated to 32 bits, the IP protocol byte, and
the half-word at the fixed frame offset `L4_OFF + 2` when `pkt_type` is
`PACKET_HOST` (0) or at `L4_OFF` for every other `pkt_type`; for a packet
whose IPv4 header has no options (a 20-byte header) these are the L4
destination port and the L4 source port. -/
theorem gadget_socket_lookup_key (current_netns : Nat) (skb : sk_buff)
    (sockets : BpfHash sockets_key sockets_value) :
    (gadget_socket_lookup current_netns skb sockets).1 = sockets ∧
    (∀ b, ip_protocol skb = some b → b ≠ 6 → b ≠ 17 →
      ∀ other : BpfHash sockets_key sockets_value,
        (gadget_socket_lookup current_netns skb other).2 = some none) ∧
    (∀ b port, ip_protocol skb = some b → (b = 6 ∨ b = 17) →
      (if skb.pkt_type = 0 then load_half skb (L4_OFF + 2) else load_half skb L4_OFF) =
        some port →
      (gadget_socket_lookup current_netns skb sockets).2 =
        some (bpf_map_lookup_elem sockets
          { netns := current_netns % 2 ^ 32, proto := b, port := port })) ∧
    (∀ b port, ip_protocol skb = some b → (b = 6 ∨ b = 17) →
      ip_header_len skb = some 20 →
      (if skb.pkt_type = 0 then l4_dest_port skb else l4_source_port skb) = some port →
      (gadget_socket_lookup current_netns skb sockets).2 =
        some (bpf_map_lookup_elem sockets
          { netns := current_netns % 2 ^ 32, proto := b, port := port })) := by
  have hn : current_netns % 2 ^ 64 % 2 ^ 32 = current_netns % 2 ^ 32 :=
    Nat.mod_mod_of_dvd _ (by norm_num)
  have fixed : ∀ b port, ip_protocol skb = some b → (b = 6 ∨ b = 17) →
      (if skb.pkt_type = 0 then load_half skb 36 else load_half skb 34) = some port →
      (gadget_socket_lookup current_netns skb sockets).2 =
        some (bpf_map_lookup_elem sockets
          { netns := current_netns % 2 ^ 32, proto := b, port := port }) := by
    intro b port hb hproto hport
    have hlt := load_byte_lt skb 23 b hb
    have hm : b % 2 ^ 16 = b := Nat.mod_eq_of_lt (by omega)
    unfold ip_protocol at hb
    have hp : port % 65536 = port := by
      by_cases hk : skb.pkt_type = 0
      · rw [if_pos hk] at hport
        exact Nat.mod_eq_of_lt (by have := load_half_lt skb 36 port hport; omega)
      · rw [if_neg hk] at hport
        exact Nat.mod_eq_of_lt (by have := load_half_lt skb 34 port hport; omega)
    unfold gadget_socket_lookup
    simp only [ETH_HLEN, iphdr_protocol, hb, hm, IPPROTO_TCP, IPPROTO_UDP, PACKET_HOST,
      L4_OFF, sizeof_iphdr, tcphdr_dest, tcphdr_source, udphdr_dest, udphdr_source, hn]
    by_cases hk : skb.pkt_type = 0
    · rw [if_pos hk] at hport
      rcases hproto with h | h <;> subst h <;> simp [hk, hport, hp]
    · rw [if_neg hk] at hport
      rcases hproto with h | h <;> subst h <;> simp [hk, hport, hp]
  refine ⟨?_, ?_, ?_, ?_⟩
  · unfold gadget_socket_lookup
    cases load_byte skb (ETH_HLEN + iphdr_protocol) with
    | none => rfl
    | some b =>
      simp only
      by_cases h6 : b % 2 ^ 16 = IPPROTO_TCP
      · rw [if_pos h6]
        by_cases hk : skb.pkt_type = PACKET_HOST
        · rw [if_pos hk]; cases load_half skb (L4_OFF + tcphdr_dest) <;> rfl
        · rw [if_neg hk]; cases load_half skb (L4_OFF + tcphdr_source) <;> rfl
      · rw [if_neg h6]
        by_cases h17 : b % 2 ^ 16 = IPPROTO_UDP
        · rw [if_pos h17]
          by_cases hk : skb.pkt_type = PACKET_HOST
          · rw [if_pos hk]; cases load_half skb (L4_OFF + udphdr_dest) <;> rfl
          · rw [if_neg hk]; cases load_half skb (L4_OFF + udphdr_source) <;> rfl
        · rw [if_neg h17]
  · intro b hb h6 h17 other
    have hlt := load_byte_lt skb 23 b hb
    have hm : b % 2 ^ 16 = b := Nat.mod_eq_of_lt (by omega)
    unfold ip_protocol at hb
    unfold gadget_socket_lookup
    simp only [ETH_HLEN, iphdr_protocol, hb, hm, IPPROTO_TCP, IPPROTO_UDP, h6, h17, if_false]
  · intro b port hb hproto hport
    exact fixed b port hb hproto hport
  · intro b port hb hproto hlen hport
    apply fixed b port hb hproto
    simpa [l4_dest_port, l4_source_port, hlen] using hport

/-- Witness for C6: an incoming TCP segment to port 443 behind a 20-byte IPv4
header, seen with `current_netns = 2 ^ 32 + 7`, finds the socket stored under
the key (7, 6, 443). -/
theorem gadget_socket_lookup_key_witness :
    ip_protocol { pkt_type := 0, data := tcp_frame } = some 6 ∧
    ip_header_len { pkt_type := 0, data := tcp_frame } = some 20 ∧
    l4_dest_port { pkt_type := 0, data := tcp_frame } = some 443 ∧
    (gadget_socket_lookup (2 ^ 32 + 7) { pkt_type := 0, data := tcp_frame } one_socket).2 =
      some (bpf_map_lookup_elem one_socket
        { netns := (2 ^ 32 + 7) % 2 ^ 32, proto := 6, port := 443 }) :=
  ⟨by decide, by decide, by decide,
    (gadget_socket_lookup_key (2 ^ 32 + 7) { pkt_type := 0, data := tcp_frame }
      one_socket).2.2.2 6 443 (by decide) (Or.inl rfl) (by decide) (by decide)⟩

end SocketsMap

namespace Traceloop

/-! ## The traceloop length modes -/

/-- C7: for every index `i` with `0 <= i <= 13`, the index mode generated by
addition is read back by the mask and differs from both
`USE_RET_AS_PARAM_LENGTH` and `USE_NULL_BYTE_LENGTH`; the only reserved
offsets are 14 and 15; none of these values has a bit in
`PARAM_PROBE_AT_EXIT_MASK`; hence distinct dynamic length-specs have distinct
descriptor words, which equal no fixed length below the index base. -/
theorem arg_index_mode_roundtrip :
    (∀ i : Nat, i ≤ 13 →
      (USE_ARG_INDEX_AS_PARAM_LENGTH + i) &&& USE_ARG_INDEX_AS_PARAM_LENGTH_MASK = i ∧
      USE_ARG_INDEX_AS_PARAM_LENGTH + i ≠ USE_RET_AS_PARAM_LENGTH ∧
      USE_ARG_INDEX_AS_PARAM_LENGTH + i ≠ USE_NULL_BYTE_LENGTH ∧
      (USE_ARG_INDEX_AS_PARAM_LENGTH + i) &&& PARAM_PROBE_AT_EXIT_MASK = 0) ∧
    (∀ i : Nat, USE_ARG_INDEX_AS_PARAM_LENGTH + i = USE_RET_AS_PARAM_LENGTH ↔ i = 14) ∧
    (∀ i : Nat, USE_ARG_INDEX_AS_PARAM_LENGTH + i = USE_NULL_BYTE_LENGTH ↔ i = 15) ∧
    USE_RET_AS_PARAM_LENGTH &&& PARAM_PROBE_AT_EXIT_MASK = 0 ∧
    USE_NULL_BYTE_LENGTH &&& PARAM_PROBE_AT_EXIT_MASK = 0 ∧
    (∀ a b : LengthSpec, a.is_dynamic = true → b.is_dynamic = true →
      args_len_of a = args_len_of b → a = b) ∧
    (∀ (a : LengthSpec) (n : Nat), a.is_dynamic = true →
      n < USE_ARG_INDEX_AS_PARAM_LENGTH → args_len_of a ≠ args_len_of (.Fixed n)) := by
  refine ⟨?_, ?_, ?_, by decide, by decide, ?_, ?_⟩
  · intro i hi
    interval_cases i <;> decide
  · intro i
    simp only [USE_ARG_INDEX_AS_PARAM_LENGTH, USE_RET_AS_PARAM_LENGTH]
    omega
  · intro i
    simp only [USE_ARG_INDEX_AS_PARAM_LENGTH, USE_NULL_BYTE_LENGTH]
    omega
  · intro a b ha hb h
    cases a <;> cases b <;>
      simp_all [LengthSpec.is_dynamic, args_len_of, USE_ARG_INDEX_AS_PARAM_LENGTH,
        USE_RET_AS_PARAM_LENGTH, USE_NULL_BYTE_LENGTH, SYSCALL_ARGS] <;>
      omega
  · intro a n ha hn h
    cases a <;>
      simp_all [LengthSpec.is_dynamic, args_len_of, USE_ARG_INDEX_AS_PARAM_LENGTH,
        USE_RET_AS_PARAM_LENGTH, USE_NULL_BYTE_LENGTH, SYSCALL_ARGS] <;>
      omega

/-- Witness for C7 at the last valid argument index, 5. -/
theorem arg_index_mode_roundtrip_witness :
    (USE_ARG_INDEX_AS_PARAM_LENGTH + 5) &&& USE_ARG_INDEX_AS_PARAM_LENGTH_MASK = 5 ∧
    USE_ARG_INDEX_AS_PARAM_LENGTH + 5 ≠ USE_RET_AS_PARAM_LENGTH ∧
    USE_ARG_INDEX_AS_PARAM_LENGTH + 5 ≠ USE_NULL_BYTE_LENGTH ∧
    (USE_ARG_INDEX_AS_PARAM_LENGTH + 5) &&& PARAM_PROBE_AT_EXIT_MASK = 0 :=
  arg_index_mode_roundtrip.1 5 (by decide)

/-- C8: for an argument whose length mode is `ReturnValueAsLength` or
`ArgIndexAsLength`, a negative return value yields zero captured bytes; a
resolved length greater than the continuation payload capacity `PARAM_LEN`
yields exactly the capacity and a smaller one is kept; and the `length` field
of every continuation record, whatever the length-spec, is at most
`PARAM_LEN`. -/
theorem dynamic_length_clamped (entry_args : Fin SYSCALL_ARGS → Nat) (exit_return : Int)
    (i : Fin SYSCALL_ARGS) :
    (exit_return < 0 →
      cont_length (resolve .ReturnValueAsLength entry_args exit_return) = 0 ∧
      cont_length (resolve (.ArgIndexAsLength i) entry_args exit_return) = 0) ∧
    ((PARAM_LEN : Int) < exit_return →
      cont_length (resolve .ReturnValueAsLength entry_args exit_return) = PARAM_LEN) ∧
    (0 ≤ exit_return → PARAM_LEN < entry_args i →
      cont_length (resolve (.ArgIndexAsLength i) entry_args exit_return) = PARAM_LEN) ∧
    (0 ≤ exit_return → exit_return ≤ (PARAM_LEN : Int) →
      cont_length (resolve .ReturnValueAsLength entry_args exit_return) =
        exit_return.toNat) ∧
    (0 ≤ exit_return → entry_args i ≤ PARAM_LEN →
      cont_length (resolve (.ArgIndexAsLength i) entry_args exit_return) = entry_args i) ∧
    (∀ spec : LengthSpec, cont_length (resolve spec entry_args exit_return) ≤ PARAM_LEN) := by
  have hP : PARAM_LEN = 128 := rfl
  refine ⟨?_, ?_, ?_, ?_, ?_, ?_⟩
  · intro h
    simp [resolve, cont_length, h]
  · intro h
    rw [hP] at h
    have h0 : ¬ exit_return < 0 := by omega
    have h1 : 128 ≤ exit_return.toNat := by omega
    simp only [resolve, cont_length, h0, if_false, hP]
    omega
  · intro h0 h
    rw [hP] at h
    have h0 : ¬ exit_return < 0 := by omega
    simp only [resolve, cont_length, h0, if_false, hP]
    omega
  · intro h0 h
    rw [hP] at h
    have h0 : ¬ exit_return < 0 := by omega
    have h1 : exit_return.toNat ≤ 128 := by omega
    simp only [resolve, cont_length, h0, if_false, hP]
    omega
  · intro h0 h
    rw [hP] at h
    have h0 : ¬ exit_return < 0 := by omega
    simp only [resolve, cont_length, h0, if_false, hP]
    omega
  · intro spec
    cases spec with
    | Fixed n => exact Nat.min_le_right _ _
    | NullTerminated => exact Nat.min_le_right _ _
    | ReturnValueAsLength =>
      by_cases h : exit_return < 0
      · simp [resolve, cont_length, h]
      · simp only [resolve, cont_length, h, if_false]
        exact Nat.min_le_right _ _
    | ArgIndexAsLength j =>
      by_cases h : exit_return < 0
      · simp [resolve, cont_length, h]
      · simp only [resolve, cont_length, h, if_false]
        exact Nat.min_le_right _ _

/-- Witness for C8: a `write` of 4096 bytes that fails with return value -1,
and the same call returning 4096. -/
theorem dynamic_length_clamped_witness :
    (cont_length (resolve .ReturnValueAsLength big_write_args (-1)) = 0 ∧
      cont_length (resolve (.ArgIndexAsLength ⟨2, by decide⟩) big_write_args (-1)) = 0) ∧
    cont_length (resolve .ReturnValueAsLength big_write_args 4096) = PARAM_LEN ∧
    cont_length (resolve (.ArgIndexAsLength ⟨2, by decide⟩) big_write_args 4096) =
      PARAM_LEN ∧
    cont_length (resolve (.ArgIndexAsLength ⟨2, by decide⟩) write_args 5) = write_args
      ⟨2, by decide⟩ :=
  ⟨(dynamic_length_clamped big_write_args (-1) ⟨2, by decide⟩).1 (by decide),
    (dynamic_length_clamped big_write_args 4096 ⟨2, by decide⟩).2.1 (by decide),
    (dynamic_length_clamped big_write_args 4096 ⟨2, by decide⟩).2.2.1 (by decide)
      (by decide),
    (dynamic_length_clamped write_args 5 ⟨2, by decide⟩).2.2.2.2.1 (by decide)
      (by decide)⟩

end Traceloop
